import Mathlib

/-!
Verification of the Agent Query Gateway (`src/agent/client.py`) and the
Configuration Resolver (`src/agent/config.py`) of the claude-agent
repository, as a shallow embedding in Lean.

Modelling conventions:
* Python `Optional[T]` arguments become `Option T`; Python `x or y`
  (falsy fallback) becomes `orFalsyStr` / `orFalsyInt`.
* The SDK message stream consumed by `AgentClient.query` becomes an
  explicit `List MessageEvent` parameter; the `hasattr` dispatch of the
  code becomes the three constructors of `MessageEvent`.
* Python `str(...)` renderings that the code returns are modelled by
  `pyStrOfOptStr` (for `ResultMessage.result : str | None`) and
  `pyStrOfContent` (for `AssistantMessage.content : list[ContentBlock]`).
* The environment becomes an explicit `Env` record; the module-global
  `_settings` cache of `config.py` is threaded explicitly through
  `get_settings`.
* Raising `ValueError` in `validate_api_key` becomes `Except QueryError`.
-/

namespace AgentGateway

/-- The single-quote character, written by code point to keep string
literals below free of quote characters. -/
def sq : String := (Char.ofNat 39).toString

/-- One content block of an assistant message, as consumed by
`AgentClient.query`.  A `text` block is a `TextBlock` of the SDK; any
non-text block is carried abstractly together with its Python `repr`
rendering. -/
inductive ContentBlock where
  | text (t : String)
  | otherBlock (rendering : String)
deriving DecidableEq

/-- Model of CPython `repr` escaping for one character inside a
single-quoted string literal: backslash, the single quote, newline,
carriage return and tab are escaped, all other characters are kept. -/
def pyReprChar (c : Char) : String :=
  if c = Char.ofNat 92 then "\\\\"
  else if c = Char.ofNat 39 then "\\" ++ sq
  else if c = Char.ofNat 10 then "\\n"
  else if c = Char.ofNat 13 then "\\r"
  else if c = Char.ofNat 9 then "\\t"
  else String.singleton c

/-- Model of CPython `repr` of a string for the simple case: always
single-quoted with `pyReprChar` escapes.  (CPython switches to double
quotes when the string contains a single quote but no double quote;
no string used in this development does.) -/
def pyReprString (s : String) : String :=
  sq ++ String.join (s.data.map pyReprChar) ++ sq

/-- Python `repr` of one content block: a `TextBlock` dataclass renders
as `TextBlock(text=<repr of text>)`; a non-text block renders as the
rendering it carries. -/
def ContentBlock.pyRepr : ContentBlock → String
  | .text t => "TextBlock(text=" ++ pyReprString t ++ ")"
  | .otherBlock rendering => rendering

/-- Python `str` of a list of content blocks (`str(last_message.content)`
at `client.py:90`): the bracketed, comma-separated list of the reprs of
the blocks. -/
def pyStrOfContent (blocks : List ContentBlock) : String :=
  "[" ++ String.intercalate ", " (blocks.map ContentBlock.pyRepr) ++ "]"

/-- Python `str` of `ResultMessage.result : str | None`
(`str(last_message.result)` at `client.py:87`). -/
def pyStrOfOptStr : Option String → String
  | none => "None"
  | some s => s

/-- One message event of the session stream, classified exactly the way
`AgentClient.query` dispatches with `hasattr` (`client.py:86-91`):
`resultEvt` is a message with a `result` attribute (`ResultMessage`),
`contentEvt` is a message without `result` but with a `content`
attribute (`AssistantMessage`, also `UserMessage`), and `otherEvt` is
any other message, carried with its Python `str` rendering. -/
inductive MessageEvent where
  | contentEvt (blocks : List ContentBlock)
  | resultEvt (result : Option String)
  | otherEvt (rendering : String)
deriving DecidableEq

/-- `True` exactly on carries-content events; used to state claims about
streams consisting only of assistant-content events. -/
def MessageEvent.isContent : MessageEvent → Bool
  | .contentEvt _ => true
  | _ => false

/-- The response extraction of `AgentClient.query` (`client.py:82-93`):
only the last message of the drained stream is inspected; a message with
a `result` attribute returns `str(result)`, else one with a `content`
attribute returns `str(content)`, else `str(message)`; an empty stream
yields the literal fallback. -/
def extractResponse (messages : List MessageEvent) : String :=
  match messages.getLast? with
  | some (.resultEvt r) => pyStrOfOptStr r
  | some (.contentEvt blocks) => pyStrOfContent blocks
  | some (.otherEvt rendering) => rendering
  | none => "No response generated."

/-- The environment variables read by `config.py`, each `none` when the
variable is unset. -/
structure Env where
  anthropicApiKey : Option String
  claudeModel : Option String
  maxTurns : Option String
  portVar : Option String
  hostVar : Option String
deriving DecidableEq

/-- Digits of a decimal literal to a number; `none` when empty or when a
non-digit occurs. -/
def digitsToNat? (cs : List Char) : Option Nat :=
  if cs.isEmpty then none
  else cs.foldlM (fun acc c => if c.isDigit then some (acc * 10 + (c.toNat - 48)) else none) 0

/-- Strip leading and trailing whitespace from a character list, as
`int(...)` does before parsing. -/
def stripWs (cs : List Char) : List Char :=
  ((cs.dropWhile Char.isWhitespace).reverse.dropWhile Char.isWhitespace).reverse

/-- Model of Python `int(s)` on a decimal string: optional surrounding
whitespace, an optional sign, then at least one digit; `none` models the
`ValueError` raised otherwise.  (Underscore digit grouping is not
modelled; no value used in this development contains one.) -/
def pyInt? (s : String) : Option Int :=
  match stripWs s.data with
  | [] => none
  | c :: rest =>
    if c = '+' then (digitsToNat? rest).map Int.ofNat
    else if c = '-' then (digitsToNat? rest).map (fun n => -(Int.ofNat n))
    else (digitsToNat? (c :: rest)).map Int.ofNat

/-- `Settings` of `config.py`: application settings loaded from the
environment. -/
structure Settings where
  anthropic_api_key : String
  model : String
  max_turns : Int
  port : Int
  host : String
  allowed_tools : List String
  disallowed_tools : List String
deriving DecidableEq

/-- The default tool allow-list of `config.py:24-26`. -/
def defaultAllowedTools : List String := ["Read", "Write", "Edit", "Glob", "Grep"]

/-- The default tool deny-list of `config.py:27-29`. -/
def defaultDisallowedTools : List String := ["Bash"]

/-- `Settings.load` (the dataclass field defaults of `config.py:13-29`):
each field reads its environment variable with the shown fallback; a
failing `int(...)` parse (modelled by `none`) aborts construction, as
the raised `ValueError` would. -/
def Settings.load? (env : Env) : Option Settings :=
  match pyInt? (env.maxTurns.getD "20"), pyInt? (env.portVar.getD "8080") with
  | some mt, some p =>
      some { anthropic_api_key := env.anthropicApiKey.getD ""
             model := env.claudeModel.getD "claude-sonnet-4-5-20250929"
             max_turns := mt
             port := p
             host := env.hostVar.getD "0.0.0.0"
             allowed_tools := defaultAllowedTools
             disallowed_tools := defaultDisallowedTools }
  | _, _ => none

/-- `get_settings` of `config.py:50-55` with the module-global
`_settings` cache made explicit: a cached instance is returned untouched
(the environment argument is not read); an empty cache constructs via
`Settings.load` and caches the result.  The outer `Option` is `none`
exactly when construction itself fails. -/
def get_settings (cache : Option Settings) (env : Env) : Option (Settings × Option Settings) :=
  match cache with
  | some s => some (s, some s)
  | none => (Settings.load? env).map (fun s => (s, some s))

/-- The error taxonomy visible to the gateway: `configError` models the
`ValueError` raised by `Settings.validate_api_key`. -/
inductive QueryError where
  | configError
deriving DecidableEq

/-- `Settings.validate_api_key` (`config.py:31-38`): raises exactly when
the credential string is falsy, i.e. empty. -/
def Settings.validate_api_key (s : Settings) : Except QueryError Unit :=
  if s.anthropic_api_key = "" then .error .configError else .ok ()

/-- The built-in default system prompt of
`AgentClient._default_system_prompt` (`client.py:37-47`). -/
def defaultSystemPrompt : String :=
  "You are a helpful AI assistant powered by Claude.\n\nYou can help with:\n- Answering questions\n- Analyzing information\n- Writing and reviewing content\n- Problem-solving\n\nBe concise, accurate, and helpful in your responses."

/-- Python `x or y` on an optional string: `None` and `""` are falsy. -/
def orFalsyStr (x : Option String) (y : String) : String :=
  match x with
  | none => y
  | some s => if s = "" then y else s

/-- Python `x or y` on an optional integer: `None` and `0` are falsy. -/
def orFalsyInt (x : Option Int) (y : Int) : Int :=
  match x with
  | none => y
  | some n => if n = 0 then y else n

/-- The state of an `AgentClient` after `__init__` (`client.py:16-35`). -/
structure AgentClient where
  settings : Settings
  system_prompt : String
  model : String
  max_turns : Int
  cwd : Option String
deriving DecidableEq

/-- `AgentClient.__init__` (`client.py:16-35`): the four optional
constructor arguments; each falls back via Python `or` — system prompt
to the built-in default, model and max-turns to the Settings defaults,
while `cwd` is stored as given.  `settings` stands for the instance
`get_settings()` returned. -/
def AgentClient.init (settings : Settings) (system_prompt : Option String)
    (model : Option String) (max_turns : Option Int) (cwd : Option String) : AgentClient :=
  { settings := settings
    system_prompt := orFalsyStr system_prompt defaultSystemPrompt
    model := orFalsyStr model settings.model
    max_turns := orFalsyInt max_turns settings.max_turns
    cwd := cwd }

/-- The fields of the SDK options object relevant to this gateway;
`permission_mode` is the SDK field of that name, whose constructor
default is `None`. -/
structure ClaudeCodeOptions where
  system_prompt : Option String
  model : Option String
  max_turns : Option Int
  allowed_tools : List String
  disallowed_tools : List String
  cwd : Option String
  permission_mode : Option String
deriving DecidableEq

/-- `AgentClient._get_options` (`client.py:49-58`): the SDK options are
built from the client fields and the Settings tool lists; the SDK
constructor is called without `permission_mode`, so that field keeps its
`None` default. -/
def AgentClient.get_options (c : AgentClient) : ClaudeCodeOptions :=
  { system_prompt := some c.system_prompt
    model := some c.model
    max_turns := some c.max_turns
    allowed_tools := c.settings.allowed_tools
    disallowed_tools := c.settings.disallowed_tools
    cwd := c.cwd
    permission_mode := none }

deriving instance DecidableEq for Except

/-- Observable trace of one `query` call: its outcome, how many stream
events were consumed, and whether a session was opened at all. -/
structure QueryTrace where
  outcome : Except QueryError String
  events_consumed : Nat
  session_opened : Bool
deriving DecidableEq

/-- `AgentClient.query` (`client.py:60-93`): validate the credential
first — on failure no session is opened and no event is consumed; on
success the session stream is fully drained and reduced by
`extractResponse`. -/
def AgentClient.query (c : AgentClient) (stream : List MessageEvent) : QueryTrace :=
  match c.settings.validate_api_key with
  | .error e => { outcome := .error e, events_consumed := 0, session_opened := false }
  | .ok _ =>
      { outcome := .ok (extractResponse stream)
        events_consumed := stream.length
        session_opened := true }

/-- `True` exactly when the final event of a stream is one whose string
rendering can be empty: a result event carrying the empty string, or an
unclassified event whose rendering is empty. -/
def finalEventMayRenderEmpty : Option MessageEvent → Bool
  | some (MessageEvent.resultEvt (some s)) => decide (s = "")
  | some (MessageEvent.otherEvt rendering) => decide (rendering = "")
  | _ => false

/-- A concrete valid Settings value: the value `Settings.load` produces
when only the credential variable is set. -/
def testSettings : Settings :=
  { anthropic_api_key := "sk-test"
    model := "claude-sonnet-4-5-20250929"
    max_turns := 20
    port := 8080
    host := "0.0.0.0"
    allowed_tools := defaultAllowedTools
    disallowed_tools := defaultDisallowedTools }

/-- A client constructed with every override omitted, over
`testSettings`. -/
def testClient : AgentClient := AgentClient.init testSettings none none none none

/-- `testSettings` with the credential left empty, as when
`ANTHROPIC_API_KEY` is unset. -/
def noKeySettings : Settings := { testSettings with anthropic_api_key := "" }

/-- A client over `noKeySettings`, with every override omitted. -/
def noKeyClient : AgentClient := AgentClient.init noKeySettings none none none none

/-- The Python `str` rendering of a representative carries-neither
message, `SystemMessage(subtype='init', data={})`. -/
def sampleSystemRendering : String :=
  "SystemMessage(subtype=" ++ sq ++ "init" ++ sq ++ ", data=\x7b\x7d)"

end AgentGateway

namespace AgentGateway

/-- Helper: the bracketed rendering of a content list is never the empty
string. -/
theorem pyStrOfContent_ne_empty (blocks : List ContentBlock) : pyStrOfContent blocks ≠ "" := by
  intro h
  have h2 := congrArg String.length h
  unfold pyStrOfContent at h2
  rw [String.length_append, String.length_append] at h2
  have hl : ("[" : String).length = 1 := rfl
  have hr : ("]" : String).length = 1 := rfl
  have he : ("" : String).length = 0 := rfl
  rw [hl, hr, he] at h2
  omega

/-- Helper: credential validation succeeds exactly on a non-empty
credential. -/
theorem validate_api_key_ok {s : Settings} (h : s.anthropic_api_key ≠ "") :
    s.validate_api_key = Except.ok () := by
  simp [Settings.validate_api_key, h]

/-- Helper: with a non-empty credential, `query` opens a session, drains
the whole stream and returns the extracted response. -/
theorem query_of_valid_key {c : AgentClient} (h : c.settings.anthropic_api_key ≠ "")
    (stream : List MessageEvent) :
    c.query stream = { outcome := Except.ok (extractResponse stream),
                       events_consumed := stream.length,
                       session_opened := true } := by
  simp [AgentClient.query, Settings.validate_api_key, h]

/-- Helper: the extracted response is non-empty whenever the final event
cannot render empty. -/
theorem extractResponse_ne_empty (stream : List MessageEvent)
    (hsafe : finalEventMayRenderEmpty stream.getLast? = false) :
    extractResponse stream ≠ "" := by
  unfold extractResponse
  rcases hL : stream.getLast? with _ | e
  · decide
  · rcases e with blocks | r | rendering
    · exact pyStrOfContent_ne_empty blocks
    · rcases r with _ | s
      · decide
      · rw [hL] at hsafe
        simp [finalEventMayRenderEmpty] at hsafe
        simpa [pyStrOfOptStr] using hsafe
    · rw [hL] at hsafe
      simp [finalEventMayRenderEmpty] at hsafe
      simpa using hsafe

/-- Helper: a falsy-fallback string that came out empty forces its
fallback to be empty. -/
theorem orFalsyStr_eq_empty {x : Option String} {y : String} (h : orFalsyStr x y = "") : y = "" := by
  rcases x with _ | s
  · exact h
  · by_cases hs : s = ""
    · subst hs
      simpa [orFalsyStr] using h
    · simp [orFalsyStr, hs] at h

/-- Helper: a falsy-fallback integer that came out zero forces its
fallback to be zero. -/
theorem orFalsyInt_eq_zero {x : Option Int} {y : Int} (h : orFalsyInt x y = 0) : y = 0 := by
  rcases x with _ | n
  · exact h
  · by_cases hn : n = 0
    · subst hn
      simpa [orFalsyInt] using h
    · simp [orFalsyInt, hn] at h

/-- Claim C1, amended: a result event carrying a non-empty result value
determines the answer exactly when it is the FINAL event of the stream —
`query` then returns that value (so the order [content, ..., result]
reduces to the result value).  The unamended arrival-order-independence
is refuted by `claim1_counterexample`. -/
theorem claim1_theorem (c : AgentClient) (stream : List MessageEvent) (r : String)
    (hkey : c.settings.anthropic_api_key ≠ "")
    (hlast : stream.getLast? = some (MessageEvent.resultEvt (some r)))
    (hr : r ≠ "") :
    (c.query stream).outcome = Except.ok r := by
  rw [query_of_valid_key hkey]
  simp [extractResponse, hlast, pyStrOfOptStr]

/-- Claim C1 witness: the stream [content "A", content "B",
result "FINAL"] of the spec reduces to "FINAL". -/
theorem claim1_witness :
    (testClient.query [MessageEvent.contentEvt [ContentBlock.text "A"],
      MessageEvent.contentEvt [ContentBlock.text "B"],
      MessageEvent.resultEvt (some "FINAL")]).outcome = Except.ok "FINAL" :=
  claim1_theorem testClient _ "FINAL" (by decide) (by rfl) (by decide)

/-- Claim C1 counterexample: a non-empty result event does NOT win
regardless of arrival order — when it arrives before a content event,
the content event (being last) determines the answer instead. -/
theorem claim1_counterexample :
    (testClient.query [MessageEvent.resultEvt (some "FINAL"),
      MessageEvent.contentEvt [ContentBlock.text "A"]]).outcome ≠ Except.ok "FINAL" := by
  decide

/-- Claim C2, amended: for a non-empty stream of assistant-content
events only, `query` returns the Python `str` rendering of the LAST
event's whole content list (`str(last_message.content)`), not the text
of its last text segment.  The last-text-segment reading is refuted by
`claim2_counterexample`. -/
theorem claim2_theorem (c : AgentClient) (stream : List MessageEvent) (blocks : List ContentBlock)
    (hkey : c.settings.anthropic_api_key ≠ "")
    (hall : stream.all MessageEvent.isContent = true)
    (hlast : stream.getLast? = some (MessageEvent.contentEvt blocks)) :
    (c.query stream).outcome = Except.ok (pyStrOfContent blocks) := by
  rw [query_of_valid_key hkey]
  simp [extractResponse, hlast]

/-- Claim C2 witness: the stream [content "A", content "B"] reduces to
the rendering of the last content list, namely `[TextBlock(text='B')]`. -/
theorem claim2_witness :
    (testClient.query [MessageEvent.contentEvt [ContentBlock.text "A"],
      MessageEvent.contentEvt [ContentBlock.text "B"]]).outcome
      = Except.ok (pyStrOfContent [ContentBlock.text "B"]) :=
  claim2_theorem testClient _ [ContentBlock.text "B"] (by decide) (by rfl) (by rfl)

/-- Claim C2 counterexample: the stream [content "A", content "B"] does
NOT reduce to the string "B" — the code returns `str(content)`, the
rendering of the whole block list, not the last text segment. -/
theorem claim2_counterexample :
    (testClient.query [MessageEvent.contentEvt [ContentBlock.text "A"],
      MessageEvent.contentEvt [ContentBlock.text "B"]]).outcome ≠ Except.ok "B" := by
  decide

/-- Claim C3, amended: with a non-empty credential, `query` returns a
non-empty string (or the literal fallback, itself non-empty) for every
stream whose final event cannot render empty, i.e. is not a result event
carrying the empty string (and not an unclassified event rendering
empty, which real SDK messages never produce).  The unconditional
never-empty invariant is refuted by `claim3_counterexample`. -/
theorem claim3_theorem (c : AgentClient) (stream : List MessageEvent)
    (hkey : c.settings.anthropic_api_key ≠ "")
    (hsafe : finalEventMayRenderEmpty stream.getLast? = false) :
    ∃ s, (c.query stream).outcome = Except.ok s ∧ s ≠ "" := by
  rw [query_of_valid_key hkey]
  exact ⟨extractResponse stream, rfl, extractResponse_ne_empty stream hsafe⟩

/-- Claim C3 witness: on the empty stream the outcome is not the empty
string. -/
theorem claim3_witness :
    (testClient.query []).outcome ≠ Except.ok "" := by
  obtain ⟨s, hs, hne⟩ := claim3_theorem testClient [] (by decide) (by rfl)
  rw [hs]
  simp only [ne_eq, Except.ok.injEq]
  exact hne

/-- Claim C3 counterexample: a stream ending in a result event whose
result value is the empty string makes `query` return the empty string
to the caller — which is neither non-empty nor the fallback. -/
theorem claim3_counterexample :
    (testClient.query [MessageEvent.resultEvt (some "")]).outcome = Except.ok "" ∧
      ("" : String) ≠ "No response generated." :=
  ⟨rfl, by decide⟩

/-- Claim C4: with an empty credential `query` fails with the
Configuration error before any session is opened — no session, zero
events consumed — and conversely the Configuration error occurs only
when the credential is empty. -/
theorem claim4_theorem (c : AgentClient) (stream : List MessageEvent) :
    (c.settings.anthropic_api_key = "" →
      c.query stream = { outcome := Except.error QueryError.configError,
                         events_consumed := 0, session_opened := false }) ∧
    ((c.query stream).outcome = Except.error QueryError.configError →
      c.settings.anthropic_api_key = "") := by
  constructor
  · intro h
    simp [AgentClient.query, Settings.validate_api_key, h]
  · intro h
    by_contra hne
    rw [query_of_valid_key hne] at h
    simp at h

/-- Claim C4 witness: the empty-credential client fails with the
Configuration error on a concrete stream, opening no session and
consuming no event. -/
theorem claim4_witness :
    noKeyClient.query [MessageEvent.contentEvt [ContentBlock.text "A"]]
      = { outcome := Except.error QueryError.configError,
          events_consumed := 0, session_opened := false } :=
  (claim4_theorem noKeyClient _).1 rfl

/-- Claim C5, amended: the session configuration built by
`_get_options` carries NO permission mode at all — the field is left at
the SDK default `None` for every construction, so in particular no
auto-accept-edits policy is applied (refuting the claim, see
`claim5_counterexample`), and no constructor argument can change this. -/
theorem claim5_theorem (st : Settings) (sp m : Option String) (mt : Option Int) (cw : Option String) :
    ((AgentClient.init st sp m mt cw).get_options).permission_mode = none := rfl

/-- Claim C5 counterexample: the options of a concrete client carry no
permission mode — in particular not the auto-accept-edits policy the
claim asserts. -/
theorem claim5_counterexample :
    (testClient.get_options).permission_mode = none ∧
      (testClient.get_options).permission_mode ≠ some "acceptEdits" :=
  ⟨rfl, by decide⟩

/-- Claim C6, amended: the gateway is constructed with optional
overrides for system prompt, model, max-turns and working directory
ONLY — there is no tool allow-list override, the session allow-list is
always the Settings default (see `claim6_counterexample`).  A supplied
truthy override takes precedence; an omitted system prompt falls back to
the built-in default text, omitted model and max-turns to the Settings
defaults, and an omitted working directory to `None` (Settings has no
working-directory default). -/
theorem claim6_theorem (st : Settings) (sp m : Option String) (mt : Option Int) (cw : Option String) :
    ((AgentClient.init st sp m mt cw).get_options).allowed_tools = st.allowed_tools ∧
    (AgentClient.init st sp m mt cw).cwd = cw ∧
    (sp = none → (AgentClient.init st sp m mt cw).system_prompt = defaultSystemPrompt) ∧
    (m = none → (AgentClient.init st sp m mt cw).model = st.model) ∧
    (mt = none → (AgentClient.init st sp m mt cw).max_turns = st.max_turns) ∧
    (∀ s, sp = some s → s ≠ "" → (AgentClient.init st sp m mt cw).system_prompt = s) ∧
    (∀ s, m = some s → s ≠ "" → (AgentClient.init st sp m mt cw).model = s) ∧
    (∀ n, mt = some n → n ≠ 0 → (AgentClient.init st sp m mt cw).max_turns = n) := by
  refine ⟨rfl, rfl, ?_, ?_, ?_, ?_, ?_, ?_⟩
  · intro h; subst h; rfl
  · intro h; subst h; rfl
  · intro h; subst h; rfl
  · intro s h hne; subst h; simp [AgentClient.init, orFalsyStr, hne]
  · intro s h hne; subst h; simp [AgentClient.init, orFalsyStr, hne]
  · intro n h hne; subst h; simp [AgentClient.init, orFalsyInt, hne]

/-- Claim C6 witness: concrete overridden and omitted constructions show
the precedence rules, and the tool allow-list of a fully overridden
construction is still the Settings default. -/
theorem claim6_witness :
    (AgentClient.init testSettings (some "SP") (some "M2") (some 5) (some "/w")).system_prompt = "SP" ∧
    (AgentClient.init testSettings (some "SP") (some "M2") (some 5) (some "/w")).model = "M2" ∧
    (AgentClient.init testSettings (some "SP") (some "M2") (some 5) (some "/w")).max_turns = 5 ∧
    (AgentClient.init testSettings (some "SP") (some "M2") (some 5) (some "/w")).cwd = some "/w" ∧
    (AgentClient.init testSettings none none none none).system_prompt = defaultSystemPrompt ∧
    (AgentClient.init testSettings none none none none).model = testSettings.model ∧
    ((AgentClient.init testSettings (some "SP") (some "M2") (some 5) (some "/w")).get_options).allowed_tools
      = testSettings.allowed_tools := by
  refine ⟨?_, ?_, ?_, ?_, ?_, ?_, ?_⟩
  · exact (claim6_theorem testSettings (some "SP") (some "M2") (some 5) (some "/w")).2.2.2.2.2.1 "SP" rfl (by decide)
  · exact (claim6_theorem testSettings (some "SP") (some "M2") (some 5) (some "/w")).2.2.2.2.2.2.1 "M2" rfl (by decide)
  · exact (claim6_theorem testSettings (some "SP") (some "M2") (some 5) (some "/w")).2.2.2.2.2.2.2 5 rfl (by decide)
  · exact (claim6_theorem testSettings (some "SP") (some "M2") (some 5) (some "/w")).2.1
  · exact (claim6_theorem testSettings none none none none).2.2.1 rfl
  · exact (claim6_theorem testSettings none none none none).2.2.2.1 rfl
  · exact (claim6_theorem testSettings (some "SP") (some "M2") (some 5) (some "/w")).1

/-- Claim C6 counterexample: no choice of constructor arguments yields a
session tool allow-list different from the Settings default — the
constructor has no tool allow-list override. -/
theorem claim6_counterexample :
    ¬ ∃ (sp m : Option String) (mt : Option Int) (cw : Option String),
        ((AgentClient.init testSettings sp m mt cw).get_options).allowed_tools ≠ testSettings.allowed_tools :=
  fun ⟨_, _, _, _, h⟩ => h rfl

/-- Claim C7, amended: the answer depends only on the FINAL event of the
stream — any events before it, of any kind, have no effect.  Hence
carries-neither events are ignored exactly when they are not final; a
carries-neither event in final position determines the answer (its
string rendering is returned), refuting insertion-anywhere invariance
(see `claim7_counterexample`). -/
theorem claim7_theorem (c : AgentClient) (xs : List MessageEvent) (e : MessageEvent) :
    (c.query (xs ++ [e])).outcome = (c.query [e]).outcome := by
  rcases hv : c.settings.validate_api_key with e0 | u
  · simp [AgentClient.query, hv]
  · simp [AgentClient.query, hv, extractResponse]

/-- Claim C7 counterexample: appending a carries-neither event at the
end of a stream changes the answer, so such events are not without
effect wherever inserted. -/
theorem claim7_counterexample :
    (testClient.query [MessageEvent.contentEvt [ContentBlock.text "A"]]).outcome ≠
      (testClient.query [MessageEvent.contentEvt [ContentBlock.text "A"],
        MessageEvent.otherEvt sampleSystemRendering]).outcome := by
  decide

/-- Claim C8: `get_settings` constructs the Settings instance from the
environment on first call (empty cache) and caches it; a second call
returns the identical cached instance without reading its environment
argument, even when that environment differs arbitrarily from the first. -/
theorem claim8_theorem (env1 env2 : Env) (s1 : Settings)
    (h : Settings.load? env1 = some s1) :
    get_settings none env1 = some (s1, some s1) ∧
      get_settings (some s1) env2 = some (s1, some s1) := by
  constructor
  · simp [get_settings, h]
  · rfl

/-- Claim C8 witness: first call under an environment holding only the
credential constructs `testSettings`; a second call under a fully
changed environment still returns the same instance. -/
theorem claim8_witness :
    get_settings none (Env.mk (some "sk-test") none none none none)
        = some (testSettings, some testSettings) ∧
      get_settings (some testSettings)
          (Env.mk (some "changed-key") (some "other-model") (some "5") (some "1") (some "other-host"))
        = some (testSettings, some testSettings) :=
  claim8_theorem _ _ testSettings (by decide)

/-- Claim C9: on the empty stream, `query` with a valid credential
returns exactly the literal fallback string. -/
theorem claim9_theorem (c : AgentClient) (h : c.settings.anthropic_api_key ≠ "") :
    (c.query []).outcome = Except.ok "No response generated." := by
  rw [query_of_valid_key h]
  rfl

/-- Claim C9 witness: the concrete valid-credential client returns the
fallback on the empty stream. -/
theorem claim9_witness :
    (testClient.query []).outcome = Except.ok "No response generated." :=
  claim9_theorem testClient (by decide)

/-- Claim C10: a falsy constructor override is treated exactly as if it
were omitted — empty-string system prompt and model and zero max-turns
all fall back as `None` would — and no construction can produce an empty
effective system prompt; an empty effective model or zero effective
max-turns can only come from the Settings default itself. -/
theorem claim10_theorem (st : Settings) (sp m : Option String) (mt : Option Int) (cw : Option String) :
    AgentClient.init st (some "") (some "") (some 0) cw = AgentClient.init st none none none cw ∧
    (AgentClient.init st sp m mt cw).system_prompt ≠ "" ∧
    ((AgentClient.init st sp m mt cw).model = "" → st.model = "") ∧
    ((AgentClient.init st sp m mt cw).max_turns = 0 → st.max_turns = 0) := by
  refine ⟨?_, ?_, ?_, ?_⟩
  · simp [AgentClient.init, orFalsyStr, orFalsyInt]
  · intro h
    have hd : defaultSystemPrompt = "" := orFalsyStr_eq_empty h
    exact absurd hd (by decide)
  · exact fun h => orFalsyStr_eq_empty h
  · exact fun h => orFalsyInt_eq_zero h

/-- Claim C10 witness: the all-falsy construction over `testSettings`
equals the all-omitted construction, and its system prompt is
non-empty. -/
theorem claim10_witness :
    AgentClient.init testSettings (some "") (some "") (some 0) none
        = AgentClient.init testSettings none none none none ∧
      (AgentClient.init testSettings (some "") (some "") (some 0) none).system_prompt ≠ "" :=
  ⟨(claim10_theorem testSettings (some "") (some "") (some 0) none).1,
   (claim10_theorem testSettings (some "") (some "") (some 0) none).2.1⟩

end AgentGateway
